import Mathlib

/-!
Verification of the Omni Axis risk assessment engine
(`ai-services/omni-axis-risk-agent/main.py`).

Shallow embedding conventions:
* Python `float` values are modelled as exact rationals (`ℚ`); the scoring
  arithmetic only uses short decimal constants.
* Python `int` fields are modelled as `ℤ`, list lengths as `ℕ`.
* The Redis list `user_tx_history:{user_id}` is modelled as a
  `UserHistoryStore`: the list of `HistoryRecord`s (index 0 = most recently
  pushed, as with `lpush`) plus the key's remaining time-to-live in seconds
  (`none` when no expiry has been set).
* `check_ip_reputation` is a pure total function in the source (its
  `try/except` body cannot raise), so it is embedded as a total function.
* `calculate_user_risk_score` calls `check_ip_reputation` internally; the
  embedding splits this into `calculate_user_risk_score_with`, which takes
  the reputation record the collaborator returned (the spec treats the
  reputation lookup as an external collaborator), and
  `calculate_user_risk_score`, the composition with `check_ip_reputation`
  exactly as in the source.  The geolocation lookup result `geo_data` is
  computed by the source but never read by the scoring logic, so it is not
  modelled.
* The stats endpoint returns a Python dict that has a `risk_trend` key only
  on the non-empty-history branch; the dict is modelled as a `RiskStats`
  record whose `risk_trend` field is an `Option String` (`none` = key
  absent).
-/

namespace OmniAxis

/-- `UserRiskData` (main.py lines 56-66). -/
structure UserRiskData where
  user_id : String
  ip_address : String
  transaction_count : ℤ
  total_volume : ℚ
  geolocation : Option (List (String × String)) := none
  device_fingerprint : Option String := none
  kyc_status : String := "pending"
  account_age_days : ℤ := 0
  failed_login_attempts : ℤ := 0
  suspicious_activity_count : ℤ := 0
deriving DecidableEq

/-- Timestamp of a transaction: the source only reads `.hour` (line 312)
and `.isoformat()` (line 359) of the Python `datetime`. -/
structure DateTimeVal where
  hour : ℕ
  iso : String
deriving DecidableEq

/-- `TransactionRiskData` (main.py lines 68-77). -/
structure TransactionRiskData where
  transaction_id : String
  user_id : String
  amount : ℚ
  asset_type : String
  timestamp : DateTimeVal
  ip_address : String
  geolocation : Option (List (String × String)) := none
  payment_method : String
  is_cross_border : Bool := false
deriving DecidableEq

/-- `RiskAssessment` (main.py lines 79-84). -/
structure RiskAssessment where
  risk_score : ℚ
  risk_level : String
  flags : List String
  recommendations : List String
  confidence : ℚ
deriving DecidableEq

/-- The reputation dict built by `check_ip_reputation` (main.py lines 135-141). -/
structure IPReputation where
  is_tor : Bool
  is_vpn : Bool
  is_proxy : Bool
  is_malicious : Bool
  reputation_score : ℚ
deriving DecidableEq

/-- One serialized history entry `{"amount", "timestamp", "risk_score"}`
(main.py lines 357-361). -/
structure HistoryRecord where
  amount : ℚ
  timestamp : String
  risk_score : ℚ
deriving DecidableEq

instance : Inhabited HistoryRecord := ⟨⟨0, "", 0⟩⟩

/-- The Redis state behind the key `user_tx_history:{user_id}`: the stored
window (most recently pushed record first) and the key's expiry. -/
structure UserHistoryStore where
  window : List HistoryRecord
  ttl_seconds : Option ℕ := none
deriving DecidableEq

/-- The response dict of `GET /risk-stats/{user_id}`; `risk_trend` is
`none` when the dict has no such key (the empty-history branch,
main.py lines 460-466). -/
structure RiskStats where
  user_id : String
  transaction_count : ℕ
  average_risk_score : ℚ
  high_risk_transactions : ℕ
  risk_trend : Option String
deriving DecidableEq

/-- Python's built-in `max` on two floats: the first argument when it is
greater or equal, the second otherwise. -/
def pymax (a b : ℚ) : ℚ := if a ≥ b then a else b

/-- Python's built-in `min` on two floats. -/
def pymin (a b : ℚ) : ℚ := if a ≤ b then a else b

/-- Python's `str.startswith`: the second string is an initial segment of
the first.  Stated on the character lists so that the kernel can
evaluate it on literals. -/
def startsWithChars (s p : String) : Bool := p.data.isPrefixOf s.data

/-- `RISK_THRESHOLDS` (main.py lines 48-53), as a lookup on the dict keys. -/
def RISK_THRESHOLDS : String → ℚ := fun key =>
  if key = "low" then 0.3
  else if key = "medium" then 0.6
  else if key = "high" then 0.8
  else if key = "critical" then 0.95
  else 0

/-- The risk-level chain both scorers run on the clamped score
(main.py lines 241-248 and 347-354). -/
def riskLevelOf (risk_score : ℚ) : String :=
  if risk_score ≥ RISK_THRESHOLDS "critical" then "critical"
  else if risk_score ≥ RISK_THRESHOLDS "high" then "high"
  else if risk_score ≥ RISK_THRESHOLDS "medium" then "medium"
  else "low"

/-- `check_ip_reputation` (main.py lines 131-150).  The body cannot raise,
so the `except` branch is dead; the function is total. -/
def check_ip_reputation (ip_address : String) : IPReputation :=
  let reputation : IPReputation :=
    { is_tor := false, is_vpn := false, is_proxy := false,
      is_malicious := false, reputation_score := 0.5 }
  if startsWithChars ip_address "192.168." ∨ startsWithChars ip_address "10." ∨
      startsWithChars ip_address "172." ∨ ip_address = "127.0.0.1" then
    { reputation with reputation_score := 0.8 }
  else
    reputation

/-- Risk factor 1 flag: "Suspicious IP address" when `ip_risk > 0.7`
(main.py lines 170-172). -/
def userIpFlags (ip_risk : ℚ) : List String :=
  if ip_risk > 0.7 then ["Suspicious IP address"] else []

/-- Risk factor 1 recommendation (main.py lines 170-172). -/
def userIpRecs (ip_risk : ℚ) : List String :=
  if ip_risk > 0.7 then ["Verify user identity through additional channels"] else []

/-- Risk factor 2: account age bucketing (main.py lines 175-184). -/
def accountAgeRisk (account_age_days : ℤ) : ℚ :=
  if account_age_days < 1 then 0.8
  else if account_age_days < 7 then 0.6
  else if account_age_days < 30 then 0.3
  else 0.1

/-- Risk factor 2 flag (main.py line 177). -/
def accountAgeFlags (account_age_days : ℤ) : List String :=
  if account_age_days < 1 then ["New account (less than 1 day old)"] else []

/-- Risk factor 2 recommendation (main.py line 178). -/
def accountAgeRecs (account_age_days : ℤ) : List String :=
  if account_age_days < 1 then ["Apply enhanced monitoring for new accounts"] else []

/-- Risk factor 3: transaction-count bucketing (main.py lines 189-195). -/
def txCountRisk (transaction_count : ℤ) : ℚ :=
  if transaction_count > 50 then 0.7
  else if transaction_count > 20 then 0.4
  else 0.1

/-- Risk factor 3 flag (main.py line 191). -/
def txCountFlags (transaction_count : ℤ) : List String :=
  if transaction_count > 50 then ["High frequency trading pattern"] else []

/-- Risk factor 4: volume bucketing (main.py lines 200-207). -/
def volumeRisk (total_volume : ℚ) : ℚ :=
  if total_volume > 100000 then 0.6
  else if total_volume > 50000 then 0.4
  else 0.1

/-- Risk factor 4 flag (main.py line 202). -/
def volumeFlags (total_volume : ℚ) : List String :=
  if total_volume > 100000 then ["High volume transactions"] else []

/-- Risk factor 4 recommendation (main.py line 203). -/
def volumeRecs (total_volume : ℚ) : List String :=
  if total_volume > 100000 then ["Verify source of funds"] else []

/-- Risk factor 5: failed-login bucketing (main.py lines 212-219). -/
def loginRisk (failed_login_attempts : ℤ) : ℚ :=
  if failed_login_attempts > 5 then 0.8
  else if failed_login_attempts > 2 then 0.4
  else 0.1

/-- Risk factor 5 flag (main.py line 214). -/
def loginFlags (failed_login_attempts : ℤ) : List String :=
  if failed_login_attempts > 5 then ["Multiple failed login attempts"] else []

/-- Risk factor 5 recommendation (main.py line 215). -/
def loginRecs (failed_login_attempts : ℤ) : List String :=
  if failed_login_attempts > 5 then ["Require password reset and 2FA"] else []

/-- Risk factor 6: KYC bucketing (main.py lines 224-232). -/
def kycRisk (kyc_status : String) : ℚ :=
  if kyc_status = "rejected" then 0.9
  else if kyc_status = "pending" then 0.5
  else 0.1

/-- Risk factor 6 flags (main.py lines 226, 230). -/
def kycFlags (kyc_status : String) : List String :=
  if kyc_status = "rejected" then ["KYC verification failed"]
  else if kyc_status = "pending" then ["KYC verification pending"]
  else []

/-- Risk factor 6 recommendation (main.py line 227). -/
def kycRecs (kyc_status : String) : List String :=
  if kyc_status = "rejected" then ["Manual review required"] else []

/-- The level-dependent recommendations appended by the user scorer
(main.py lines 251-256). -/
def generalRecs (risk_level : String) : List String :=
  if risk_level ∈ (["high", "critical"] : List String) then
    ["Block transactions until manual review", "Escalate to compliance team"]
  else if risk_level = "medium" then
    ["Apply enhanced monitoring", "Require additional verification"]
  else []

/-- `sum(risk_factors)` of the user scorer (main.py lines 166-237):
each factor times its weight, given the reputation score the
collaborator returned. -/
def userRiskSum (u : UserRiskData) (reputation_score : ℚ) : ℚ :=
  (1 - reputation_score) * 0.2 +
  accountAgeRisk u.account_age_days * 0.15 +
  txCountRisk u.transaction_count * 0.2 +
  volumeRisk u.total_volume * 0.15 +
  loginRisk u.failed_login_attempts * 0.1 +
  kycRisk u.kyc_status * 0.2

/-- `calculate_user_risk_score` (main.py lines 152-266) with the
collaborator's reputation record passed explicitly. -/
def calculate_user_risk_score_with (u : UserRiskData) (ip_reputation : IPReputation) :
    RiskAssessment :=
  let ip_risk := 1 - ip_reputation.reputation_score
  let risk_score := pymin (pymax (userRiskSum u ip_reputation.reputation_score) 0) 1
  let risk_level := riskLevelOf risk_score
  { risk_score := risk_score
    risk_level := risk_level
    flags := userIpFlags ip_risk ++ accountAgeFlags u.account_age_days ++
      txCountFlags u.transaction_count ++ volumeFlags u.total_volume ++
      loginFlags u.failed_login_attempts ++ kycFlags u.kyc_status
    recommendations := userIpRecs ip_risk ++ accountAgeRecs u.account_age_days ++
      volumeRecs u.total_volume ++ loginRecs u.failed_login_attempts ++
      kycRecs u.kyc_status ++ generalRecs risk_level
    confidence := 0.8 }

/-- `calculate_user_risk_score` composed with the in-process
`check_ip_reputation` call on line 164, as the source runs it. -/
def calculate_user_risk_score (u : UserRiskData) : RiskAssessment :=
  calculate_user_risk_score_with u (check_ip_reputation u.ip_address)

/-- Transaction risk factor 1: amount bucketing (main.py lines 279-286). -/
def amountRisk (amount : ℚ) : ℚ :=
  if amount > 50000 then 0.8
  else if amount > 10000 then 0.5
  else 0.2

/-- Transaction risk factor 1 flag (main.py line 281). -/
def amountFlags (amount : ℚ) : List String :=
  if amount > 50000 then ["Large transaction amount"] else []

/-- Transaction risk factor 1 recommendation (main.py line 282). -/
def amountRecs (amount : ℚ) : List String :=
  if amount > 50000 then ["Verify source of funds"] else []

/-- Transaction risk factor 2: frequency bucketing over the count of the
last-10 history read (main.py lines 291-297). -/
def frequencyRisk (recent_count : ℕ) : ℚ :=
  if recent_count ≥ 5 then 0.7
  else if recent_count ≥ 3 then 0.4
  else 0.1

/-- Transaction risk factor 2 flag (main.py line 293). -/
def frequencyFlags (recent_count : ℕ) : List String :=
  if recent_count ≥ 5 then ["High transaction frequency"] else []

/-- Transaction risk factor 3: cross-border (main.py lines 302-307). -/
def crossBorderRisk (is_cross_border : Bool) : ℚ :=
  if is_cross_border then 0.6 else 0.2

/-- Transaction risk factor 3 flag (main.py line 304). -/
def crossBorderFlags (is_cross_border : Bool) : List String :=
  if is_cross_border then ["Cross-border transaction"] else []

/-- Transaction risk factor 3 recommendation (main.py line 305). -/
def crossBorderRecs (is_cross_border : Bool) : List String :=
  if is_cross_border then ["Verify compliance with international regulations"] else []

/-- Transaction risk factor 4: time of day (main.py lines 312-317). -/
def timeRisk (hour : ℕ) : ℚ :=
  if hour < 6 ∨ hour > 22 then 0.5 else 0.1

/-- Transaction risk factor 4 flag (main.py line 315). -/
def timeFlags (hour : ℕ) : List String :=
  if hour < 6 ∨ hour > 22 then ["Transaction outside business hours"] else []

/-- Transaction risk factor 5: payment method (main.py lines 322-328). -/
def paymentRisk (payment_method : String) : ℚ :=
  if payment_method ∈ (["crypto", "anonymous"] : List String) then 0.6
  else if payment_method ∈ (["credit_card", "bank_transfer"] : List String) then 0.2
  else 0.3

/-- Transaction risk factor 5 flag (main.py line 324). -/
def paymentFlags (payment_method : String) : List String :=
  if payment_method ∈ (["crypto", "anonymous"] : List String) then
    ["High-risk payment method"]
  else []

/-- Transaction risk factor 6: asset type (main.py lines 333-338). -/
def assetRisk (asset_type : String) : ℚ :=
  if asset_type ∈ (["art", "luxury", "collectibles"] : List String) then 0.5 else 0.2

/-- Transaction risk factor 6 flag (main.py line 336). -/
def assetFlags (asset_type : String) : List String :=
  if asset_type ∈ (["art", "luxury", "collectibles"] : List String) then
    ["High-risk asset type"]
  else []

/-- `sum(risk_factors)` of the transaction scorer (main.py lines 279-343). -/
def txRiskSum (tx : TransactionRiskData) (recent_count : ℕ) : ℚ :=
  amountRisk tx.amount * 0.3 +
  frequencyRisk recent_count * 0.2 +
  crossBorderRisk tx.is_cross_border * 0.15 +
  timeRisk tx.timestamp.hour * 0.1 +
  paymentRisk tx.payment_method * 0.15 +
  assetRisk tx.asset_type * 0.1

/-- `calculate_transaction_risk_score` (main.py lines 268-374): reads the
last-10 slice of the stored window (`lrange key 0 9`), scores, then
performs `lpush` (new record to the front), `ltrim key 0 19` (keep the
20 most recent) and `expire key (86400*30)`. -/
def calculate_transaction_risk_score (tx : TransactionRiskData)
    (store : UserHistoryStore) : RiskAssessment × UserHistoryStore :=
  let recent_count := (store.window.take 10).length
  let risk_score := pymin (pymax (txRiskSum tx recent_count) 0) 1
  let risk_level := riskLevelOf risk_score
  let tx_record : HistoryRecord :=
    { amount := tx.amount, timestamp := tx.timestamp.iso, risk_score := risk_score }
  ({ risk_score := risk_score
     risk_level := risk_level
     flags := amountFlags tx.amount ++ frequencyFlags recent_count ++
       crossBorderFlags tx.is_cross_border ++ timeFlags tx.timestamp.hour ++
       paymentFlags tx.payment_method ++ assetFlags tx.asset_type
     recommendations := amountRecs tx.amount ++
       crossBorderRecs tx.is_cross_border
     confidence := 0.75 },
   { window := (tx_record :: store.window).take 20
     ttl_seconds := some (86400 * 30) })

/-- `get_user_risk_stats` (main.py lines 450-492) on the stored window of
one user; `risk_trend` is `none` on the empty-history branch, which
returns a dict without that key. -/
def get_user_risk_stats (user_id : String) (window : List HistoryRecord) :
    RiskStats :=
  if window = [] then
    { user_id := user_id
      transaction_count := 0
      average_risk_score := 0
      high_risk_transactions := 0
      risk_trend := none }
  else
    let risk_scores := window.map (fun r => r.risk_score)
    { user_id := user_id
      transaction_count := window.length
      average_risk_score := risk_scores.sum / (risk_scores.length : ℚ)
      high_risk_transactions :=
        (risk_scores.filter (fun s => s ≥ RISK_THRESHOLDS "high")).length
      risk_trend := some (if 1 < risk_scores.length ∧
          risk_scores.getLastD 0 < risk_scores.headI
        then "increasing" else "stable") }

/-- The Redis state transition of one transaction evaluation. -/
def txStep (tx : TransactionRiskData) (store : UserHistoryStore) :
    UserHistoryStore :=
  (calculate_transaction_risk_score tx store).2

/-- The `HistoryRecord` a given evaluation pushes (main.py lines 357-361). -/
def txRecord (tx : TransactionRiskData) (store : UserHistoryStore) :
    HistoryRecord :=
  { amount := tx.amount
    timestamp := tx.timestamp.iso
    risk_score := (calculate_transaction_risk_score tx store).1.risk_score }

/-- Sequential transaction evaluations for one user, threading the store. -/
def runAll : List TransactionRiskData → UserHistoryStore → UserHistoryStore
  | [], store => store
  | tx :: rest, store => runAll rest (txStep tx store)

/-- The records pushed by a sequence of evaluations, in push order
(oldest pushed first). -/
def pushTrace : List TransactionRiskData → UserHistoryStore → List HistoryRecord
  | [], _ => []
  | tx :: rest, store => txRecord tx store :: pushTrace rest (txStep tx store)

/-- Modelled from the spec claim wording, for comparison with the code:
classification by the table `{low: 0.0, medium: 0.3, high: 0.6,
critical: 0.8}` using greater-or-equal to the highest threshold met
(the `low` key being the default, not a cut point). -/
def classify_spec (s : ℚ) : String :=
  if s ≥ 0.8 then "critical"
  else if s ≥ 0.6 then "high"
  else if s ≥ 0.3 then "medium"
  else "low"

/-- Decimal digit value of a character, `none` for a non-digit. -/
def charDigit (c : Char) : Option ℕ :=
  if c.isDigit then some (c.toNat - 48) else none

/-- Decimal number denoted by a nonempty list of digit characters. -/
def parseOctet (cs : List Char) : Option ℕ :=
  match cs with
  | [] => none
  | _ =>
    cs.foldl
      (fun acc c =>
        match acc, charDigit c with
        | some n, some d => some (n * 10 + d)
        | _, _ => none)
      (some 0)

/-- Split a character list on the dot character. -/
def splitOnDot : List Char → List (List Char)
  | [] => [[]]
  | c :: rest =>
    if c = '.' then [] :: splitOnDot rest
    else
      match splitOnDot rest with
      | [] => [[c]]
      | group :: groups => (c :: group) :: groups

/-- The four octets of a dotted-quad IPv4 address, `none` when the string
is not a well-formed IPv4 address. -/
def ipv4Octets (ip : String) : Option (ℕ × ℕ × ℕ × ℕ) :=
  match (splitOnDot ip.data).map parseOctet with
  | [some a, some b, some c, some d] =>
    if a ≤ 255 ∧ b ≤ 255 ∧ c ≤ 255 ∧ d ≤ 255 then some (a, b, c, d) else none
  | _ => none

/-- Modelled from the spec claim wording, for comparison with the code:
an IPv4 address is private (RFC 1918: 10.0.0.0/8, 172.16.0.0/12,
192.168.0.0/16) or loopback (127.0.0.0/8). -/
def isPrivateOrLoopbackIPv4 (ip : String) : Bool :=
  match ipv4Octets ip with
  | some (a, b, _, _) =>
    decide (a = 10 ∨ (a = 172 ∧ 16 ≤ b ∧ b ≤ 31) ∨ (a = 192 ∧ b = 168) ∨ a = 127)
  | none => false

/-- Concrete input refuting the spec-table classification: a public-IP
user with rejected KYC whose score lands in `[0.3, 0.6)`. -/
def uSpecTable : UserRiskData :=
  { user_id := "u-c1", ip_address := "8.8.8.8", transaction_count := 0,
    total_volume := 0, kyc_status := "rejected", account_age_days := 0,
    failed_login_attempts := 0 }

/-- Concrete input of the spec's boundary scenario (rejected KYC, new
account, 60 transactions, 150000 volume, 6 failed logins). -/
def uBoundary : UserRiskData :=
  { user_id := "u-c3", ip_address := "203.0.113.5", transaction_count := 60,
    total_volume := 150000, kyc_status := "rejected", account_age_days := 0,
    failed_login_attempts := 6 }

/-- A reputation record with the boundary scenario's score of 0.3. -/
def repLow : IPReputation :=
  { is_tor := false, is_vpn := false, is_proxy := false,
    is_malicious := false, reputation_score := 0.3 }

/-- Concrete input of the spec's transaction scenario (amount 60000,
crypto, cross-border, art, hour 2). -/
def txScenario : TransactionRiskData :=
  { transaction_id := "tx-c4", user_id := "u-c4", amount := 60000,
    asset_type := "art",
    timestamp := { hour := 2, iso := "2024-01-01T02:00:00" },
    ip_address := "203.0.113.5", payment_method := "crypto",
    is_cross_border := true }

/-- A store with no retained history for the user. -/
def emptyStore : UserHistoryStore := { window := [] }

/-- A two-entry window whose newest entry (index 0) scores higher than its
oldest entry. -/
def wTrend : List HistoryRecord :=
  [{ amount := 100, timestamp := "2024-01-02T00:00:00", risk_score := 0.5 },
   { amount := 50, timestamp := "2024-01-01T00:00:00", risk_score := 0.2 }]

/-- Concrete input for monotonicity instances: a low-risk verified user. -/
def uMono : UserRiskData :=
  { user_id := "u-c7", ip_address := "8.8.8.8", transaction_count := 5,
    total_volume := 1000, kyc_status := "verified", account_age_days := 0,
    failed_login_attempts := 0 }

lemma thresholds_low : RISK_THRESHOLDS "low" = 0.3 := rfl

lemma thresholds_medium : RISK_THRESHOLDS "medium" = 0.6 := rfl

lemma thresholds_high : RISK_THRESHOLDS "high" = 0.8 := rfl

lemma thresholds_critical : RISK_THRESHOLDS "critical" = 0.95 := rfl

lemma riskLevelOf_of_lt_high {s : ℚ} (h : s < 0.8) :
    riskLevelOf s = "medium" ∨ riskLevelOf s = "low" := by
  unfold riskLevelOf
  rw [thresholds_critical, thresholds_high, thresholds_medium]
  split_ifs with h1 h2 h3
  · exfalso; rw [ge_iff_le] at h1; linarith
  · exfalso; rw [ge_iff_le] at h2; linarith
  · exact Or.inl rfl
  · exact Or.inr rfl

lemma accountAgeRisk_bounds (d : ℤ) :
    0.1 ≤ accountAgeRisk d ∧ accountAgeRisk d ≤ 0.8 := by
  unfold accountAgeRisk; split_ifs <;> constructor <;> norm_num

lemma txCountRisk_bounds (n : ℤ) :
    0.1 ≤ txCountRisk n ∧ txCountRisk n ≤ 0.7 := by
  unfold txCountRisk; split_ifs <;> constructor <;> norm_num

lemma volumeRisk_bounds (v : ℚ) :
    0.1 ≤ volumeRisk v ∧ volumeRisk v ≤ 0.6 := by
  unfold volumeRisk; split_ifs <;> constructor <;> norm_num

lemma loginRisk_bounds (n : ℤ) :
    0.1 ≤ loginRisk n ∧ loginRisk n ≤ 0.8 := by
  unfold loginRisk; split_ifs <;> constructor <;> norm_num

lemma kycRisk_bounds (s : String) :
    0.1 ≤ kycRisk s ∧ kycRisk s ≤ 0.9 := by
  unfold kycRisk; split_ifs <;> constructor <;> norm_num

lemma amountRisk_bounds (a : ℚ) :
    0.2 ≤ amountRisk a ∧ amountRisk a ≤ 0.8 := by
  unfold amountRisk; split_ifs <;> constructor <;> norm_num

lemma frequencyRisk_bounds (n : ℕ) :
    0.1 ≤ frequencyRisk n ∧ frequencyRisk n ≤ 0.7 := by
  unfold frequencyRisk; split_ifs <;> constructor <;> norm_num

lemma crossBorderRisk_bounds (b : Bool) :
    0.2 ≤ crossBorderRisk b ∧ crossBorderRisk b ≤ 0.6 := by
  unfold crossBorderRisk; split_ifs <;> constructor <;> norm_num

lemma timeRisk_bounds (h : ℕ) :
    0.1 ≤ timeRisk h ∧ timeRisk h ≤ 0.5 := by
  unfold timeRisk; split_ifs <;> constructor <;> norm_num

lemma paymentRisk_bounds (m : String) :
    0.2 ≤ paymentRisk m ∧ paymentRisk m ≤ 0.6 := by
  unfold paymentRisk; split_ifs <;> constructor <;> norm_num

lemma assetRisk_bounds (t : String) :
    0.2 ≤ assetRisk t ∧ assetRisk t ≤ 0.5 := by
  unfold assetRisk; split_ifs <;> constructor <;> norm_num

lemma check_ip_reputation_score (ip : String) :
    (check_ip_reputation ip).reputation_score = 0.8 ∨
    (check_ip_reputation ip).reputation_score = 0.5 := by
  simp only [check_ip_reputation]
  split_ifs <;> simp

lemma userRiskSum_bounds (u : UserRiskData) {r : ℚ} (hl : 0.5 ≤ r) (hu : r ≤ 1) :
    0 ≤ userRiskSum u r ∧ userRiskSum u r ≤ 0.71 := by
  obtain ⟨a1, a2⟩ := accountAgeRisk_bounds u.account_age_days
  obtain ⟨b1, b2⟩ := txCountRisk_bounds u.transaction_count
  obtain ⟨c1, c2⟩ := volumeRisk_bounds u.total_volume
  obtain ⟨d1, d2⟩ := loginRisk_bounds u.failed_login_attempts
  obtain ⟨e1, e2⟩ := kycRisk_bounds u.kyc_status
  unfold userRiskSum
  constructor <;> linarith

lemma txRiskSum_bounds (tx : TransactionRiskData) (n : ℕ) :
    0 ≤ txRiskSum tx n ∧ txRiskSum tx n ≤ 0.66 := by
  obtain ⟨a1, a2⟩ := amountRisk_bounds tx.amount
  obtain ⟨b1, b2⟩ := frequencyRisk_bounds n
  obtain ⟨c1, c2⟩ := crossBorderRisk_bounds tx.is_cross_border
  obtain ⟨d1, d2⟩ := timeRisk_bounds tx.timestamp.hour
  obtain ⟨e1, e2⟩ := paymentRisk_bounds tx.payment_method
  obtain ⟨f1, f2⟩ := assetRisk_bounds tx.asset_type
  unfold txRiskSum
  constructor <;> linarith

lemma pymin_pymax_bounds (s : ℚ) :
    0 ≤ pymin (pymax s 0) 1 ∧ pymin (pymax s 0) 1 ≤ 1 := by
  unfold pymin pymax; split_ifs <;> constructor <;> linarith

lemma pymin_pymax_eq {s : ℚ} (h0 : 0 ≤ s) (h1 : s ≤ 1) :
    pymin (pymax s 0) 1 = s := by
  unfold pymin pymax; split_ifs <;> linarith

lemma pymin_pymax_le {s c : ℚ} (hs : s ≤ c) (hc : 0 ≤ c) :
    pymin (pymax s 0) 1 ≤ c := by
  unfold pymin pymax; split_ifs <;> linarith

lemma pymin_pymax_mono {a b : ℚ} (h : a ≤ b) :
    pymin (pymax a 0) 1 ≤ pymin (pymax b 0) 1 := by
  unfold pymin pymax; split_ifs <;> linarith

lemma user_score_eq (u : UserRiskData) (rep : IPReputation) :
    (calculate_user_risk_score_with u rep).risk_score =
      pymin (pymax (userRiskSum u rep.reputation_score) 0) 1 := rfl

lemma user_level_eq (u : UserRiskData) (rep : IPReputation) :
    (calculate_user_risk_score_with u rep).risk_level =
      riskLevelOf (pymin (pymax (userRiskSum u rep.reputation_score) 0) 1) := rfl

lemma user_flags_eq (u : UserRiskData) (rep : IPReputation) :
    (calculate_user_risk_score_with u rep).flags =
      userIpFlags (1 - rep.reputation_score) ++
      accountAgeFlags u.account_age_days ++
      txCountFlags u.transaction_count ++
      volumeFlags u.total_volume ++
      loginFlags u.failed_login_attempts ++
      kycFlags u.kyc_status := rfl

lemma user_recs_eq (u : UserRiskData) (rep : IPReputation) :
    (calculate_user_risk_score_with u rep).recommendations =
      userIpRecs (1 - rep.reputation_score) ++
      accountAgeRecs u.account_age_days ++
      volumeRecs u.total_volume ++
      loginRecs u.failed_login_attempts ++
      kycRecs u.kyc_status ++
      generalRecs
        (riskLevelOf (pymin (pymax (userRiskSum u rep.reputation_score) 0) 1)) := rfl

lemma tx_score_eq (tx : TransactionRiskData) (store : UserHistoryStore) :
    (calculate_transaction_risk_score tx store).1.risk_score =
      pymin (pymax (txRiskSum tx (store.window.take 10).length) 0) 1 := rfl

lemma tx_level_eq (tx : TransactionRiskData) (store : UserHistoryStore) :
    (calculate_transaction_risk_score tx store).1.risk_level =
      riskLevelOf (pymin (pymax (txRiskSum tx (store.window.take 10).length) 0) 1) := rfl

lemma tx_recs_eq (tx : TransactionRiskData) (store : UserHistoryStore) :
    (calculate_transaction_risk_score tx store).1.recommendations =
      amountRecs tx.amount ++ crossBorderRecs tx.is_cross_border := rfl

lemma not_mem_ite_singleton {c : Prop} [Decidable c] {a b : String} (h : a ≠ b) :
    a ∉ (if c then [b] else ([] : List String)) := by
  split <;> simp [h]

lemma not_mem_append2 {a : String} {l₁ l₂ : List String}
    (h1 : a ∉ l₁) (h2 : a ∉ l₂) : a ∉ l₁ ++ l₂ := by
  simp [List.mem_append, h1, h2]

lemma not_mem_userIpRecs {a : String}
    (h : a ≠ "Verify user identity through additional channels") (x : ℚ) :
    a ∉ userIpRecs x := by
  unfold userIpRecs; exact not_mem_ite_singleton h

lemma not_mem_accountAgeRecs {a : String}
    (h : a ≠ "Apply enhanced monitoring for new accounts") (d : ℤ) :
    a ∉ accountAgeRecs d := by
  unfold accountAgeRecs; exact not_mem_ite_singleton h

lemma not_mem_volumeRecs {a : String}
    (h : a ≠ "Verify source of funds") (v : ℚ) :
    a ∉ volumeRecs v := by
  unfold volumeRecs; exact not_mem_ite_singleton h

lemma not_mem_loginRecs {a : String}
    (h : a ≠ "Require password reset and 2FA") (n : ℤ) :
    a ∉ loginRecs n := by
  unfold loginRecs; exact not_mem_ite_singleton h

lemma not_mem_kycRecs {a : String}
    (h : a ≠ "Manual review required") (s : String) :
    a ∉ kycRecs s := by
  unfold kycRecs; exact not_mem_ite_singleton h

lemma not_mem_amountRecs {a : String}
    (h : a ≠ "Verify source of funds") (v : ℚ) :
    a ∉ amountRecs v := by
  unfold amountRecs; exact not_mem_ite_singleton h

lemma not_mem_crossBorderRecs {a : String}
    (h : a ≠ "Verify compliance with international regulations") (b : Bool) :
    a ∉ crossBorderRecs b := by
  unfold crossBorderRecs; exact not_mem_ite_singleton h

lemma generalRecs_of_not_high {lvl : String} (h : lvl = "medium" ∨ lvl = "low") :
    "Block transactions until manual review" ∉ generalRecs lvl ∧
    "Escalate to compliance team" ∉ generalRecs lvl := by
  rcases h with h | h <;> subst h <;> exact ⟨by decide, by decide⟩

lemma not_mem_generalRecs_other {a : String}
    (h1 : a ≠ "Block transactions until manual review")
    (h2 : a ≠ "Escalate to compliance team")
    (h3 : a ≠ "Apply enhanced monitoring")
    (h4 : a ≠ "Require additional verification") (lvl : String) :
    a ∉ generalRecs lvl := by
  unfold generalRecs; split_ifs <;> simp [h1, h2, h3, h4]

lemma not_mem_user_recs {u : UserRiskData} {rep : IPReputation} {a : String}
    (h1 : a ∉ userIpRecs (1 - rep.reputation_score))
    (h2 : a ≠ "Apply enhanced monitoring for new accounts")
    (h3 : a ≠ "Verify source of funds")
    (h4 : a ≠ "Require password reset and 2FA")
    (h5 : a ≠ "Manual review required")
    (h6 : a ∉ generalRecs (calculate_user_risk_score_with u rep).risk_level) :
    a ∉ (calculate_user_risk_score_with u rep).recommendations := by
  rw [user_recs_eq]
  rw [user_level_eq] at h6
  exact not_mem_append2 (not_mem_append2 (not_mem_append2 (not_mem_append2
    (not_mem_append2 h1 (not_mem_accountAgeRecs h2 _))
    (not_mem_volumeRecs h3 _)) (not_mem_loginRecs h4 _))
    (not_mem_kycRecs h5 _)) h6

lemma not_mem_kycFlags {a : String}
    (h1 : a ≠ "KYC verification failed")
    (h2 : a ≠ "KYC verification pending") (s : String) :
    a ∉ kycFlags s := by
  unfold kycFlags; split_ifs <;> simp [h1, h2]

lemma not_mem_user_flags {u : UserRiskData} {rep : IPReputation} {a : String}
    (h0 : a ∉ userIpFlags (1 - rep.reputation_score))
    (h1 : a ≠ "New account (less than 1 day old)")
    (h2 : a ≠ "High frequency trading pattern")
    (h3 : a ≠ "High volume transactions")
    (h4 : a ≠ "Multiple failed login attempts")
    (h5 : a ≠ "KYC verification failed")
    (h6 : a ≠ "KYC verification pending") :
    a ∉ (calculate_user_risk_score_with u rep).flags := by
  rw [user_flags_eq]
  refine not_mem_append2 (not_mem_append2 (not_mem_append2 (not_mem_append2
    (not_mem_append2 h0 ?_) ?_) ?_) ?_) (not_mem_kycFlags h5 h6 _)
  · unfold accountAgeFlags; exact not_mem_ite_singleton h1
  · unfold txCountFlags; exact not_mem_ite_singleton h2
  · unfold volumeFlags; exact not_mem_ite_singleton h3
  · unfold loginFlags; exact not_mem_ite_singleton h4

/-- Claim C1 counterexample: at the concrete input `uSpecTable` the code
computes `risk_score = 0.445` and returns `risk_level = "low"`, but the
claim's thresholds table `{low: 0.0, medium: 0.3, high: 0.6, critical: 0.8}`
classifies 0.445 as `"medium"`, so the returned level is not the
classification the claim states. -/
theorem riskLevel_spec_table_mismatch :
    (calculate_user_risk_score uSpecTable).risk_level ≠
      classify_spec (calculate_user_risk_score uSpecTable).risk_score := by
  have hrep : check_ip_reputation uSpecTable.ip_address =
      ⟨false, false, false, false, 0.5⟩ := rfl
  have hscore : (calculate_user_risk_score uSpecTable).risk_score = 0.445 := by
    simp only [calculate_user_risk_score, user_score_eq, hrep]
    norm_num [userRiskSum, uSpecTable, accountAgeRisk, txCountRisk, volumeRisk,
      loginRisk, kycRisk, pymin, pymax]
  have hlevel : (calculate_user_risk_score uSpecTable).risk_level = "low" := by
    simp only [calculate_user_risk_score, user_level_eq, hrep]
    norm_num [userRiskSum, uSpecTable, accountAgeRisk, txCountRisk, volumeRisk,
      loginRisk, kycRisk, pymin, pymax, riskLevelOf, thresholds_critical,
      thresholds_high, thresholds_medium]
  rw [hscore, hlevel]
  have hclass : classify_spec 0.445 = "medium" := by norm_num [classify_spec]
  rw [hclass]
  decide

/-- Claim C1 (amended): for every input to either scorer, the returned
`risk_level` is exactly the classification of `risk_score` by the code's
thresholds table `{low: 0.3, medium: 0.6, high: 0.8, critical: 0.95}` using
greater-or-equal to the highest of the medium/high/critical cut points
(score ≥ 0.95 is critical, ≥ 0.8 high, ≥ 0.6 medium, anything below 0.6
low; the `low` key is not a cut point), and `risk_score` is always in
`[0, 1]`. -/
theorem riskLevel_code_thresholds_and_score_bounds :
    (∀ u : UserRiskData,
      (calculate_user_risk_score u).risk_level =
        riskLevelOf (calculate_user_risk_score u).risk_score ∧
      0 ≤ (calculate_user_risk_score u).risk_score ∧
      (calculate_user_risk_score u).risk_score ≤ 1) ∧
    (∀ (tx : TransactionRiskData) (store : UserHistoryStore),
      (calculate_transaction_risk_score tx store).1.risk_level =
        riskLevelOf (calculate_transaction_risk_score tx store).1.risk_score ∧
      0 ≤ (calculate_transaction_risk_score tx store).1.risk_score ∧
      (calculate_transaction_risk_score tx store).1.risk_score ≤ 1) := by
  constructor
  · intro u
    simp only [calculate_user_risk_score, user_score_eq, user_level_eq]
    exact ⟨trivial, (pymin_pymax_bounds _).1, (pymin_pymax_bounds _).2⟩
  · intro tx store
    simp only [tx_score_eq, tx_level_eq]
    exact ⟨trivial, (pymin_pymax_bounds _).1, (pymin_pymax_bounds _).2⟩

/-- Claim C2: every user assessment has `risk_score ≤ 0.71` and every
transaction assessment has `risk_score ≤ 0.66` whatever the stored
history; under the code's thresholds neither scorer ever returns
`risk_level` "high" or "critical", and the standing recommendations
"Block transactions until manual review" and "Escalate to compliance team"
are never emitted by either scorer. -/
theorem scorers_never_high_or_critical :
    (∀ u : UserRiskData,
      (calculate_user_risk_score u).risk_score ≤ 0.71 ∧
      (calculate_user_risk_score u).risk_level ≠ "high" ∧
      (calculate_user_risk_score u).risk_level ≠ "critical" ∧
      "Block transactions until manual review" ∉
        (calculate_user_risk_score u).recommendations ∧
      "Escalate to compliance team" ∉
        (calculate_user_risk_score u).recommendations) ∧
    (∀ (tx : TransactionRiskData) (store : UserHistoryStore),
      (calculate_transaction_risk_score tx store).1.risk_score ≤ 0.66 ∧
      (calculate_transaction_risk_score tx store).1.risk_level ≠ "high" ∧
      (calculate_transaction_risk_score tx store).1.risk_level ≠ "critical" ∧
      "Block transactions until manual review" ∉
        (calculate_transaction_risk_score tx store).1.recommendations ∧
      "Escalate to compliance team" ∉
        (calculate_transaction_risk_score tx store).1.recommendations) := by
  constructor
  · intro u
    have hrl : 0.5 ≤ (check_ip_reputation u.ip_address).reputation_score := by
      rcases check_ip_reputation_score u.ip_address with h | h <;>
        (rw [h]; try norm_num)
    have hru : (check_ip_reputation u.ip_address).reputation_score ≤ 1 := by
      rcases check_ip_reputation_score u.ip_address with h | h <;>
        (rw [h]; try norm_num)
    obtain ⟨hs0, hs71⟩ := userRiskSum_bounds u hrl hru
    have hscore : (calculate_user_risk_score u).risk_score ≤ 0.71 := by
      simp only [calculate_user_risk_score, user_score_eq]
      exact pymin_pymax_le hs71 (by norm_num)
    have hlvl : (calculate_user_risk_score u).risk_level = "medium" ∨
        (calculate_user_risk_score u).risk_level = "low" := by
      simp only [calculate_user_risk_score, user_level_eq]
      exact riskLevelOf_of_lt_high
        (lt_of_le_of_lt (pymin_pymax_le hs71 (by norm_num)) (by norm_num))
    obtain ⟨hb, he⟩ := generalRecs_of_not_high
      (by simpa only [calculate_user_risk_score] using hlvl)
    refine ⟨hscore, ?_, ?_, ?_, ?_⟩
    · rcases hlvl with h | h <;> rw [h] <;> decide
    · rcases hlvl with h | h <;> rw [h] <;> decide
    · exact not_mem_user_recs (not_mem_userIpRecs (by decide) _) (by decide)
        (by decide) (by decide) (by decide) hb
    · exact not_mem_user_recs (not_mem_userIpRecs (by decide) _) (by decide)
        (by decide) (by decide) (by decide) he
  · intro tx store
    obtain ⟨hs0, hs66⟩ := txRiskSum_bounds tx (store.window.take 10).length
    have hscore : (calculate_transaction_risk_score tx store).1.risk_score ≤ 0.66 := by
      rw [tx_score_eq]
      exact pymin_pymax_le hs66 (by norm_num)
    have hlvl : (calculate_transaction_risk_score tx store).1.risk_level = "medium" ∨
        (calculate_transaction_risk_score tx store).1.risk_level = "low" := by
      rw [tx_level_eq]
      exact riskLevelOf_of_lt_high
        (lt_of_le_of_lt (pymin_pymax_le hs66 (by norm_num)) (by norm_num))
    refine ⟨hscore, ?_, ?_, ?_, ?_⟩
    · rcases hlvl with h | h <;> rw [h] <;> decide
    · rcases hlvl with h | h <;> rw [h] <;> decide
    · rw [tx_recs_eq]
      exact not_mem_append2 (not_mem_amountRecs (by decide) _)
        (not_mem_crossBorderRecs (by decide) _)
    · rw [tx_recs_eq]
      exact not_mem_append2 (not_mem_amountRecs (by decide) _)
        (not_mem_crossBorderRecs (by decide) _)

/-- Claim C3 counterexample: with the boundary scenario's fields and a
reputation score of exactly 0.3 (an instance of "reputation score ≤ 0.3"),
the code computes score 0.75 and classifies "medium", not "critical", and
the escalation recommendation is absent. -/
theorem rejected_kyc_boundary_not_critical :
    repLow.reputation_score ≤ 0.3 ∧
    (calculate_user_risk_score_with uBoundary repLow).risk_level = "medium" ∧
    "Escalate to compliance team" ∉
      (calculate_user_risk_score_with uBoundary repLow).recommendations := by
  have hlvl : (calculate_user_risk_score_with uBoundary repLow).risk_level =
      "medium" := by
    rw [user_level_eq]
    norm_num [userRiskSum, uBoundary, repLow, accountAgeRisk, txCountRisk,
      volumeRisk, loginRisk, kycRisk, pymin, pymax, riskLevelOf,
      thresholds_critical, thresholds_high, thresholds_medium]
  refine ⟨by norm_num [repLow], hlvl, ?_⟩
  exact not_mem_user_recs (not_mem_userIpRecs (by decide) _) (by decide)
    (by decide) (by decide) (by decide) (by rw [hlvl]; decide)

/-- Claim C3 (amended): for every `UserRiskData` with
`kyc_status = "rejected"`, `account_age_days = 0`, `transaction_count = 60`,
`total_volume = 150000`, `failed_login_attempts = 6` and an IP reputation
score `r` with `0 ≤ r ≤ 0.3`, the score is `0.61 + 0.2·(1 − r)` and the
classification is never "critical": it is "high" when `r ≤ 0.05` and
"medium" otherwise; the KYC recommendation "Manual review required" is
always included, and "Escalate to compliance team" is included exactly when
`r ≤ 0.05`. -/
theorem rejected_kyc_boundary_level (u : UserRiskData) (rep : IPReputation)
    (hk : u.kyc_status = "rejected") (ha : u.account_age_days = 0)
    (ht : u.transaction_count = 60) (hv : u.total_volume = 150000)
    (hf : u.failed_login_attempts = 6)
    (hr0 : 0 ≤ rep.reputation_score) (hr : rep.reputation_score ≤ 0.3) :
    (calculate_user_risk_score_with u rep).risk_score =
      0.61 + 0.2 * (1 - rep.reputation_score) ∧
    (calculate_user_risk_score_with u rep).risk_level ≠ "critical" ∧
    (calculate_user_risk_score_with u rep).risk_level =
      (if rep.reputation_score ≤ 0.05 then "high" else "medium") ∧
    "Manual review required" ∈
      (calculate_user_risk_score_with u rep).recommendations ∧
    ("Escalate to compliance team" ∈
        (calculate_user_risk_score_with u rep).recommendations ↔
      rep.reputation_score ≤ 0.05) := by
  have hsum : userRiskSum u rep.reputation_score =
      0.61 + 0.2 * (1 - rep.reputation_score) := by
    unfold userRiskSum
    rw [hk, ha, ht, hv, hf, show accountAgeRisk 0 = 0.8 from rfl,
      show txCountRisk 60 = 0.7 from rfl,
      show volumeRisk 150000 = 0.6 from by norm_num [volumeRisk],
      show loginRisk 6 = 0.8 from rfl,
      show kycRisk "rejected" = 0.9 from rfl]
    ring
  have hscore : (calculate_user_risk_score_with u rep).risk_score =
      0.61 + 0.2 * (1 - rep.reputation_score) := by
    rw [user_score_eq, hsum]
    exact pymin_pymax_eq (by linarith) (by linarith)
  have hlvl : (calculate_user_risk_score_with u rep).risk_level =
      (if rep.reputation_score ≤ 0.05 then "high" else "medium") := by
    rw [user_level_eq, hsum, pymin_pymax_eq (by linarith) (by linarith)]
    unfold riskLevelOf
    rw [thresholds_critical, thresholds_high, thresholds_medium]
    by_cases h05 : rep.reputation_score ≤ 0.05
    · have h1 : ¬(0.61 + 0.2 * (1 - rep.reputation_score) ≥ (0.95 : ℚ)) := by
        rw [ge_iff_le]; intro hx; linarith
      have h2 : 0.61 + 0.2 * (1 - rep.reputation_score) ≥ (0.8 : ℚ) := by
        rw [ge_iff_le]; linarith
      rw [if_pos h05, if_neg h1, if_pos h2]
    · push_neg at h05
      have h1 : ¬(0.61 + 0.2 * (1 - rep.reputation_score) ≥ (0.95 : ℚ)) := by
        rw [ge_iff_le]; intro hx; linarith
      have h2 : ¬(0.61 + 0.2 * (1 - rep.reputation_score) ≥ (0.8 : ℚ)) := by
        rw [ge_iff_le]; intro hx; linarith
      have h3 : 0.61 + 0.2 * (1 - rep.reputation_score) ≥ (0.6 : ℚ) := by
        rw [ge_iff_le]; linarith
      rw [if_neg (by intro hx; linarith : ¬rep.reputation_score ≤ 0.05),
        if_neg h1, if_neg h2, if_pos h3]
  refine ⟨hscore, ?_, hlvl, ?_, ?_⟩
  · rw [hlvl]; split_ifs <;> decide
  · rw [user_recs_eq]
    simp only [List.mem_append]
    exact Or.inl (Or.inr (by rw [hk]; decide))
  · constructor
    · intro hmem
      by_contra h05
      exact (not_mem_user_recs (not_mem_userIpRecs (by decide) _) (by decide)
        (by decide) (by decide) (by decide)
        (by rw [hlvl, if_neg h05]; decide)) hmem
    · intro h05
      rw [user_recs_eq]
      simp only [List.mem_append]
      refine Or.inr ?_
      have hR : riskLevelOf
          (pymin (pymax (userRiskSum u rep.reputation_score) 0) 1) = "high" := by
        rw [← user_level_eq, hlvl, if_pos h05]
      rw [hR]
      decide

/-- Witness for `rejected_kyc_boundary_level` at the concrete boundary
input `uBoundary` with reputation score 0.3. -/
theorem rejected_kyc_boundary_level_witness :
    (calculate_user_risk_score_with uBoundary repLow).risk_score =
      0.61 + 0.2 * (1 - repLow.reputation_score) ∧
    (calculate_user_risk_score_with uBoundary repLow).risk_level ≠ "critical" ∧
    (calculate_user_risk_score_with uBoundary repLow).risk_level =
      (if repLow.reputation_score ≤ 0.05 then "high" else "medium") ∧
    "Manual review required" ∈
      (calculate_user_risk_score_with uBoundary repLow).recommendations ∧
    ("Escalate to compliance team" ∈
        (calculate_user_risk_score_with uBoundary repLow).recommendations ↔
      repLow.reputation_score ≤ 0.05) :=
  rejected_kyc_boundary_level uBoundary repLow rfl rfl rfl rfl rfl
    (by norm_num [repLow]) (by norm_num [repLow])

/-- Claim C4 counterexample: the spec's transaction scenario
(amount 60000, crypto, cross-border, art, hour 2) with no prior history
yields `risk_level = "low"`, which is neither "high" nor "critical". -/
theorem crypto_art_scenario_not_high :
    (calculate_transaction_risk_score txScenario emptyStore).1.risk_level ≠ "high" ∧
    (calculate_transaction_risk_score txScenario emptyStore).1.risk_level ≠ "critical" := by
  have h : (calculate_transaction_risk_score txScenario emptyStore).1.risk_level =
      "low" := by
    rw [tx_level_eq]
    norm_num [txRiskSum, txScenario, emptyStore, amountRisk, frequencyRisk,
      crossBorderRisk, timeRisk, paymentRisk, assetRisk, pymin, pymax,
      riskLevelOf, thresholds_critical, thresholds_high, thresholds_medium]
  rw [h]
  exact ⟨by decide, by decide⟩

/-- Claim C4 (amended): for every `TransactionRiskData` with
`amount = 60000`, `payment_method = "crypto"`, `is_cross_border = true`,
`asset_type = "art"`, event hour 2 and no prior history for the user,
the scorer returns `risk_score = 0.54` and `risk_level = "low"`. -/
theorem crypto_art_scenario_low (tx : TransactionRiskData)
    (store : UserHistoryStore)
    (ha : tx.amount = 60000) (hp : tx.payment_method = "crypto")
    (hc : tx.is_cross_border = true) (hs : tx.asset_type = "art")
    (hh : tx.timestamp.hour = 2) (hw : store.window = []) :
    (calculate_transaction_risk_score tx store).1.risk_score = 0.54 ∧
    (calculate_transaction_risk_score tx store).1.risk_level = "low" := by
  have hsum : txRiskSum tx (store.window.take 10).length = 0.54 := by
    unfold txRiskSum
    rw [ha, hp, hc, hs, hh, hw]
    norm_num [amountRisk, frequencyRisk, crossBorderRisk, timeRisk,
      paymentRisk, assetRisk]
  constructor
  · rw [tx_score_eq, hsum]
    exact pymin_pymax_eq (by norm_num) (by norm_num)
  · rw [tx_level_eq, hsum, pymin_pymax_eq (by norm_num) (by norm_num)]
    norm_num [riskLevelOf, thresholds_critical, thresholds_high,
      thresholds_medium]

/-- Witness for `crypto_art_scenario_low` at the concrete scenario input. -/
theorem crypto_art_scenario_low_witness :
    (calculate_transaction_risk_score txScenario emptyStore).1.risk_score = 0.54 ∧
    (calculate_transaction_risk_score txScenario emptyStore).1.risk_level = "low" :=
  crypto_art_scenario_low txScenario emptyStore rfl rfl rfl rfl rfl rfl

lemma getLastD_map_risk (l : List HistoryRecord) (a : HistoryRecord) :
    (l.map (fun r => r.risk_score)).getLastD a.risk_score =
      (l.getLastD a).risk_score := by
  induction l generalizing a with
  | nil => rfl
  | cons b t ih =>
    rw [List.map_cons, List.getLastD_cons, List.getLastD_cons]
    exact ih b

lemma headI_map_risk (l : List HistoryRecord) (h : l ≠ []) :
    (l.map (fun r => r.risk_score)).headI = l.headI.risk_score := by
  cases l with
  | nil => exact absurd rfl h
  | cons b t => rfl

/-- Claim C5 counterexample: on the two-entry window `wTrend` the most
recent entry (index 0, the head) scores 0.5 and the oldest retained entry
scores 0.2.  The claim predicts "increasing" exactly when the oldest score
is greater than the newest, i.e. "stable" here; the code returns
"increasing". -/
theorem risk_trend_direction_mismatch :
    (get_user_risk_stats "u-c5" wTrend).risk_trend = some "increasing" ∧
    ¬((wTrend.getLastD default).risk_score > wTrend.headI.risk_score) := by
  constructor
  · have hne : wTrend ≠ [] := by simp [wTrend]
    unfold get_user_risk_stats
    rw [if_neg hne]
    dsimp only
    norm_num [wTrend, List.getLastD, List.headI]
  · norm_num [wTrend, List.getLastD, List.headI]

/-- Claim C5 (amended): for every user whose retained history has at least
two entries, the risk-stats trend indicator is "increasing" exactly when
the most recent retained entry's score (index 0 of the stored window) is
greater than the oldest retained entry's score, and "stable" otherwise
(still a two-point comparison, but in the direction the code implements,
which is opposite to the claim's). -/
theorem risk_trend_newest_vs_oldest (user_id : String)
    (window : List HistoryRecord) (h2 : 2 ≤ window.length) :
    (get_user_risk_stats user_id window).risk_trend =
      some (if (window.getLastD default).risk_score < window.headI.risk_score
        then "increasing" else "stable") := by
  have hne : window ≠ [] := by
    intro h
    rw [h] at h2
    norm_num at h2
  unfold get_user_risk_stats
  rw [if_neg hne]
  dsimp only
  rw [List.length_map,
    show (0 : ℚ) = (default : HistoryRecord).risk_score from rfl,
    getLastD_map_risk window default, headI_map_risk window hne]
  have h1 : 1 < window.length := by omega
  simp [h1]

/-- Witness for `risk_trend_newest_vs_oldest` at the two-entry window. -/
theorem risk_trend_newest_vs_oldest_witness :
    (get_user_risk_stats "u-c5" wTrend).risk_trend =
      some (if (wTrend.getLastD default).risk_score < wTrend.headI.risk_score
        then "increasing" else "stable") :=
  risk_trend_newest_vs_oldest "u-c5" wTrend (by norm_num [wTrend])

/-- Claim C6 counterexample: with no retained history the stats response is
built without a `risk_trend` key (modelled as `none`), so the claimed
five-field zeroed shape including `risk_trend` is not what is returned. -/
theorem empty_stats_trend_absent :
    (get_user_risk_stats "u-c6" []).risk_trend = none := rfl

/-- Claim C6 (amended): for every user identifier with no retained history,
`GET /risk-stats/{user_id}` returns the zeroed shape with exactly the four
fields `user_id`, `transaction_count = 0`, `average_risk_score = 0.0` and
`high_risk_transactions = 0`; the `risk_trend` field is absent. -/
theorem empty_stats_zeroed_four_fields (user_id : String) :
    get_user_risk_stats user_id [] =
      { user_id := user_id, transaction_count := 0, average_risk_score := 0,
        high_risk_transactions := 0, risk_trend := none } := rfl

/-- Claim C9 counterexample: "172.32.0.1" is a public address (the private
block 172.16.0.0/12 spans only 172.16 through 172.31), yet the code's
prefix test assigns it the private/loopback score 0.8 — so 0.8 is not
returned for exactly the private/loopback addresses. -/
theorem ip_reputation_not_private_semantics :
    (check_ip_reputation "172.32.0.1").reputation_score = 0.8 ∧
    isPrivateOrLoopbackIPv4 "172.32.0.1" = false :=
  ⟨rfl, by decide⟩

/-- Claim C9 (amended): the IP reputation check is total (it never
propagates a failure to the caller) and returns `reputation_score = 0.8`
for exactly the addresses matched by the code's literal prefix test
(starting with "192.168.", "10." or "172.", or equal to "127.0.0.1") and
the neutral default 0.5 for every other address, with all threat flags
false.  The prefix test is not the same as membership in the real
private/loopback ranges. -/
theorem ip_reputation_literal_rule (ip : String) :
    (check_ip_reputation ip).reputation_score =
      (if startsWithChars ip "192.168." ∨ startsWithChars ip "10." ∨
          startsWithChars ip "172." ∨ ip = "127.0.0.1"
        then (0.8 : ℚ) else 0.5) ∧
    (check_ip_reputation ip).is_tor = false ∧
    (check_ip_reputation ip).is_vpn = false ∧
    (check_ip_reputation ip).is_proxy = false ∧
    (check_ip_reputation ip).is_malicious = false := by
  unfold check_ip_reputation
  split_ifs <;> exact ⟨rfl, rfl, rfl, rfl, rfl⟩

/-- Claim C10: for every `UserRiskData` input, the IP-reputation risk
`1 − reputation_score` computed from `check_ip_reputation` is either 0.2
or 0.5, so the "reputation risk > 0.7" condition is unreachable, and the
"Suspicious IP address" flag and its recommendation "Verify user identity
through additional channels" never appear in any returned assessment. -/
theorem suspicious_ip_flag_unreachable (u : UserRiskData) :
    ((1 - (check_ip_reputation u.ip_address).reputation_score = 0.2) ∨
     (1 - (check_ip_reputation u.ip_address).reputation_score = 0.5)) ∧
    ¬(1 - (check_ip_reputation u.ip_address).reputation_score > 0.7) ∧
    "Suspicious IP address" ∉ (calculate_user_risk_score u).flags ∧
    "Verify user identity through additional channels" ∉
      (calculate_user_risk_score u).recommendations := by
  have hiprisk : (1 - (check_ip_reputation u.ip_address).reputation_score = 0.2) ∨
      (1 - (check_ip_reputation u.ip_address).reputation_score = 0.5) := by
    rcases check_ip_reputation_score u.ip_address with h | h
    · rw [h]; left; norm_num
    · rw [h]; right; norm_num
  have hnot : ¬(1 - (check_ip_reputation u.ip_address).reputation_score > 0.7) := by
    rcases hiprisk with h | h <;> rw [h] <;> norm_num
  refine ⟨hiprisk, hnot, ?_, ?_⟩
  · unfold calculate_user_risk_score
    refine not_mem_user_flags ?_ (by decide) (by decide) (by decide)
      (by decide) (by decide) (by decide)
    unfold userIpFlags
    rw [if_neg hnot]
    simp
  · unfold calculate_user_risk_score
    refine not_mem_user_recs ?_ (by decide) (by decide) (by decide) (by decide)
      (not_mem_generalRecs_other (by decide) (by decide) (by decide)
        (by decide) _)
    unfold userIpRecs
    rw [if_neg hnot]
    simp

lemma accountAgeRisk_antitone {d₁ d₂ : ℤ} (h : d₁ ≤ d₂) :
    accountAgeRisk d₂ ≤ accountAgeRisk d₁ := by
  unfold accountAgeRisk
  split_ifs <;> first | (exfalso; omega) | norm_num

lemma amountRisk_mono {a₁ a₂ : ℚ} (h : a₁ ≤ a₂) :
    amountRisk a₁ ≤ amountRisk a₂ := by
  unfold amountRisk
  split_ifs <;> first | (exfalso; linarith) | norm_num

/-- Claim C7: increasing `account_age_days` (all other user fields fixed)
never increases the user risk score, and increasing `amount` (all other
transaction fields and the stored history fixed) never decreases the
transaction risk score. -/
theorem scorer_monotonicity :
    (∀ (u : UserRiskData) (d₁ d₂ : ℤ), d₁ ≤ d₂ →
      (calculate_user_risk_score { u with account_age_days := d₂ }).risk_score ≤
      (calculate_user_risk_score { u with account_age_days := d₁ }).risk_score) ∧
    (∀ (tx : TransactionRiskData) (store : UserHistoryStore) (a₁ a₂ : ℚ),
      a₁ ≤ a₂ →
      (calculate_transaction_risk_score { tx with amount := a₁ } store).1.risk_score ≤
      (calculate_transaction_risk_score { tx with amount := a₂ } store).1.risk_score) := by
  constructor
  · intro u d₁ d₂ h
    simp only [calculate_user_risk_score, user_score_eq]
    apply pymin_pymax_mono
    unfold userRiskSum
    dsimp only
    have hA := accountAgeRisk_antitone h
    linarith
  · intro tx store a₁ a₂ h
    rw [tx_score_eq, tx_score_eq]
    apply pymin_pymax_mono
    unfold txRiskSum
    dsimp only
    have hA := amountRisk_mono h
    linarith

/-- Witness for `scorer_monotonicity` at concrete ages 1 ≤ 5 and concrete
amounts 100 ≤ 200. -/
theorem scorer_monotonicity_witness :
    (calculate_user_risk_score { uMono with account_age_days := 5 }).risk_score ≤
      (calculate_user_risk_score { uMono with account_age_days := 1 }).risk_score ∧
    (calculate_transaction_risk_score { txScenario with amount := 100 }
        emptyStore).1.risk_score ≤
      (calculate_transaction_risk_score { txScenario with amount := 200 }
        emptyStore).1.risk_score :=
  ⟨scorer_monotonicity.1 uMono 1 5 (by norm_num),
   scorer_monotonicity.2 txScenario emptyStore 100 200 (by norm_num)⟩

lemma txStep_window (tx : TransactionRiskData) (s : UserHistoryStore) :
    (txStep tx s).window = (txRecord tx s :: s.window).take 20 := rfl

lemma runAll_cons (tx : TransactionRiskData) (rest : List TransactionRiskData)
    (s : UserHistoryStore) : runAll (tx :: rest) s = runAll rest (txStep tx s) := rfl

lemma pushTrace_cons (tx : TransactionRiskData) (rest : List TransactionRiskData)
    (s : UserHistoryStore) :
    pushTrace (tx :: rest) s = txRecord tx s :: pushTrace rest (txStep tx s) := rfl

lemma pushTrace_length (txs : List TransactionRiskData) (s : UserHistoryStore) :
    (pushTrace txs s).length = txs.length := by
  induction txs generalizing s with
  | nil => rfl
  | cons tx rest ih => simp [pushTrace_cons, ih]

lemma take_append_take (a b : List HistoryRecord) :
    (a ++ b.take 20).take 20 = (a ++ b).take 20 := by
  rw [List.take_append_eq_append_take, List.take_append_eq_append_take,
    List.take_take]
  congr 1
  congr 1
  omega

lemma runAll_window (txs : List TransactionRiskData) (s : UserHistoryStore)
    (h : txs ≠ []) :
    (runAll txs s).window = ((pushTrace txs s).reverse ++ s.window).take 20 := by
  induction txs generalizing s with
  | nil => exact absurd rfl h
  | cons tx rest ih =>
    by_cases hr : rest = []
    · subst hr
      simp [runAll_cons, runAll, pushTrace_cons, pushTrace, txStep_window]
    · rw [runAll_cons, ih (txStep tx s) hr, txStep_window, take_append_take]
      congr 1
      simp [pushTrace_cons, List.append_assoc]

/-- Claim C8: every transaction evaluation pushes the new
`HistoryRecord{amount, event_time, risk_score}` to the front of the user's
window, trims the window to the 20 most recent entries, and resets the
window's expiry to 30 days; the window length never exceeds 20 after any
write, and after 25 sequential evaluations for one user the stored window
is exactly the 20 most recently pushed records, newest first (the reversed
push trace truncated to 20). -/
theorem history_window_push_trim_expire :
    (∀ (tx : TransactionRiskData) (s : UserHistoryStore),
      (calculate_transaction_risk_score tx s).2.window =
        (txRecord tx s :: s.window).take 20 ∧
      (calculate_transaction_risk_score tx s).2.ttl_seconds = some (86400 * 30) ∧
      (calculate_transaction_risk_score tx s).2.window.length ≤ 20) ∧
    (∀ (txs : List TransactionRiskData) (s : UserHistoryStore),
      txs.length = 25 →
      (runAll txs s).window = (pushTrace txs s).reverse.take 20 ∧
      (runAll txs s).window.length = 20) := by
  constructor
  · intro tx s
    refine ⟨rfl, rfl, ?_⟩
    have hdef : (calculate_transaction_risk_score tx s).2.window =
        (txRecord tx s :: s.window).take 20 := rfl
    rw [hdef, List.length_take]
    omega
  · intro txs s h
    have hne : txs ≠ [] := by
      intro hx
      rw [hx] at h
      simp at h
    have hw := runAll_window txs s hne
    have hlen : (pushTrace txs s).reverse.length = 25 := by
      rw [List.length_reverse, pushTrace_length, h]
    constructor
    · rw [hw, List.take_append_eq_append_take, hlen]
      simp
    · rw [hw, List.length_take, List.length_append, hlen]
      omega

/-- Witness for `history_window_push_trim_expire` on 25 copies of the
concrete scenario transaction starting from an empty store. -/
theorem history_window_push_trim_expire_witness :
    (runAll (List.replicate 25 txScenario) emptyStore).window =
      (pushTrace (List.replicate 25 txScenario) emptyStore).reverse.take 20 ∧
    (runAll (List.replicate 25 txScenario) emptyStore).window.length = 20 :=
  history_window_push_trim_expire.2 (List.replicate 25 txScenario) emptyStore
    (by simp)

end OmniAxis
